import Mathlib

/-!
Verification development for the `olLegend` repository (`src/Legend.js`):
an OpenLayers control that builds a legend panel from the legend
declarations of the visible layer sources.

The JavaScript is shallowly embedded below:
* `collectAlloc` embeds `Legend.collectSourceLegends_` (the loop over
  `frameState.layerStatesArray`), with DOM `div` allocation made explicit
  through a node-id counter so that the reference-identity comparison
  performed by `ol/array.equals` can be modelled faithfully;
* `createLegendItem_` embeds `Legend.createLegendItem_` (the probe-geometry
  selection drawn on a 30x30 canvas);
* `PanelState` gathers the observable fields of a `Legend` instance
  (`collapsed_`, `collapsible_`, the mounted button label, the CSS classes,
  `renderedLegends_`, `renderedVisible_`, the `display` style and the body
  children of `divElement_`);
* `constructLegend`, `handleToggle_`, `handleClick_`, `setCollapsible`,
  `setCollapsed`, `updateElement_` and `render` embed the methods of the
  same names.

External `ol` helpers used by the source are embedded by their documented
behaviour: `inView` is folded into `LayerState.visible`; `ol/array.equals`
is `equalsNodes` (element-wise strict identity, here node ids);
`ol/dom.replaceNode(newNode, oldNode)` replaces `oldNode` only when it is
currently mounted, which is captured in `toggledLabel`.
-/

namespace OlLegend

/-- The probe geometry drawn on the preview canvas by
`createLegendItem_`: `new Point`, `new LineString` or `new Polygon`
with the literal vertex lists of the source. -/
inductive ProbeGeometry where
  | point (coord : Nat × Nat)
  | lineString (coords : List (Nat × Nat))
  | polygon (ring : List (Nat × Nat))
deriving DecidableEq

/-- One legend entry as declared by a data source: the fields
`label`, `style` and `geometry` read by `collectSourceLegends_`.
The style descriptor is opaque to the control and is embedded as a
plain identifier. The `geometry` field is an optional string, matching
the loose string comparison in `createLegendItem_`. -/
structure LegendEntry where
  label : String
  style : Nat
  geometry : Option String
deriving DecidableEq

/-- The value returned by a source `getLegends()` call:
a falsy value (`absent`, skipped by `if (!legends) continue`),
a single truthy non-array object, or an array (possibly empty -
an empty array is truthy in JavaScript). -/
inductive LegendsResult where
  | absent
  | single (e : LegendEntry)
  | list (entries : List LegendEntry)
deriving DecidableEq

/-- The behaviour of one `getLegends()` invocation: it either throws
or returns a `LegendsResult`. -/
inductive LegendsCall where
  | throws (e : String)
  | returns (r : LegendsResult)
deriving DecidableEq

/-- A data source as seen by the control: the `get('title')` property
and the optional `getLegends` capability (`none` when
`typeof source.getLegends !== 'function'`). -/
structure Source where
  title : Option String
  getLegends : Option LegendsCall
deriving DecidableEq

/-- One entry of `frameState.layerStatesArray`. The external
`inView(layerState, frameState.viewState)` predicate is folded into the
`visible` flag; `source` is `layerState.layer.getSource()` (`none` when
the layer has no source). -/
structure LayerState where
  visible : Bool
  source : Option Source
deriving DecidableEq

/-- The per-frame snapshot consumed by `updateElement_`. -/
structure FrameState where
  layerStatesArray : List LayerState
deriving DecidableEq

/-- The `li` element built by `createLegendItem_`: a canvas of the
fixed size passed to `toContext`, the style set on the vector context,
the probe geometry drawn, and the label span. -/
structure LegendItem where
  canvasSize : Nat × Nat
  style : Nat
  drawnGeometry : ProbeGeometry
  label : String
deriving DecidableEq

/-- The literal polygon ring of `createLegendItem_`. -/
def polygonProbe : List (Nat × Nat) :=
  [(2, 6), (15, 6), (28, 2), (26, 24), (10, 20), (4, 26), (2, 2)]

/-- The literal polyline of `createLegendItem_`. -/
def lineStringProbe : List (Nat × Nat) :=
  [(0, 15), (6, 10), (12, 20), (18, 18), (24, 15), (30, 15)]

/-- The geometry dispatch of `createLegendItem_`:
`geometry == 'Polygon'`, `geometry == 'LineString'`, otherwise a
single point at `[15, 15]`. -/
def selectProbeGeometry (geometry : Option String) : ProbeGeometry :=
  if geometry = some "Polygon" then ProbeGeometry.polygon polygonProbe
  else if geometry = some "LineString" then ProbeGeometry.lineString lineStringProbe
  else ProbeGeometry.point (15, 15)

/-- `Legend.createLegendItem_(label, style, geometry)`: a canvas sized
`[30, 30]` via `toContext`, the style applied, the selected probe
geometry drawn, and the label attached. -/
def createLegendItem_ (label : String) (style : Nat) (geometry : Option String) : LegendItem :=
  { canvasSize := (30, 30)
    style := style
    drawnGeometry := selectProbeGeometry geometry
    label := label }

/-- The title attached to a block: `if (source.get('title'))` - a
JavaScript truthiness test, so the empty string attaches no title. -/
def blockTitle (title : Option String) : Option String :=
  match title with
  | none => none
  | some t => if t = "" then none else some t

/-- The content of one per-source `div` pushed onto `visibleLegends`:
the optional `ol-legend-label` element and the `li` items of the `ul`. -/
structure LegendBlock where
  title : Option String
  items : List LegendItem
deriving DecidableEq

/-- Builds the block content for a source: title handling plus one
`createLegendItem_` call per normalized entry. -/
def mkBlock (title : Option String) (entries : List LegendEntry) : LegendBlock :=
  { title := blockTitle title
    items := entries.map (fun e => createLegendItem_ e.label e.style e.geometry) }

/-- A freshly created `div` DOM node holding a block: the node identity
(allocation number) together with its structural content. -/
structure DomBlock where
  nodeId : Nat
  block : LegendBlock
deriving DecidableEq

/-- What one iteration of the `collectSourceLegends_` loop does with a
layer state: skip it (one of the `continue` branches), throw out of the
whole method (an uncaught `getLegends()` exception), or push one block. -/
inductive LayerOutcome where
  | skip
  | throw (e : String)
  | contribute (b : LegendBlock)
deriving DecidableEq

/-- The per-layer dispatch of `collectSourceLegends_`: skip when not in
view, when the layer has no source, when the source has no `getLegends`
function, or when `getLegends()` returns a falsy value; propagate a
throw; otherwise contribute one block built from the normalized entry
sequence (a single non-array value becomes a one-entry sequence). -/
def layerOutcome (ls : LayerState) : LayerOutcome :=
  if ls.visible then
    match ls.source with
    | none => LayerOutcome.skip
    | some src =>
      match src.getLegends with
      | none => LayerOutcome.skip
      | some (LegendsCall.throws e) => LayerOutcome.throw e
      | some (LegendsCall.returns LegendsResult.absent) => LayerOutcome.skip
      | some (LegendsCall.returns (LegendsResult.single e)) =>
        LayerOutcome.contribute (mkBlock src.title [e])
      | some (LegendsCall.returns (LegendsResult.list es)) =>
        LayerOutcome.contribute (mkBlock src.title es)
  else LayerOutcome.skip

/-- `Legend.collectSourceLegends_` over a layer-state list, with explicit
DOM allocation: `nid` is the next fresh node id; each contributed block
is a newly created `div`, so it receives a fresh id. An exception from
any `getLegends()` aborts the whole method (there is no `try`/`catch`
in the source), discarding the blocks already built. -/
def collectAlloc (nid : Nat) : List LayerState → Except String (List DomBlock × Nat)
  | [] => Except.ok ([], nid)
  | ls :: rest =>
    match layerOutcome ls with
    | LayerOutcome.skip => collectAlloc nid rest
    | LayerOutcome.throw e => Except.error e
    | LayerOutcome.contribute b =>
      match collectAlloc (nid + 1) rest with
      | Except.error e => Except.error e
      | Except.ok (blocks, nid2) => Except.ok (⟨nid, b⟩ :: blocks, nid2)

/-- `Legend.collectSourceLegends_(frameState)`. -/
def collectSourceLegends_ (nid : Nat) (frameState : FrameState) :
    Except String (List DomBlock × Nat) :=
  collectAlloc nid frameState.layerStatesArray

/-- `ol/array.equals(arr1, arr2)`: length check, then element-wise
strict identity comparison - for DOM nodes that is node identity,
embedded as node-id equality. -/
def equalsNodes : List DomBlock → List DomBlock → Bool
  | [], [] => true
  | [], _ :: _ => false
  | _ :: _, [] => false
  | a :: as, b :: bs => if a.nodeId = b.nodeId then equalsNodes as bs else false

/-- Which of the two button label elements is currently mounted in the
button: `label_` (the collapsed affordance, default text `L`) or
`collapseLabel_` (the expanded affordance, default text a chevron). -/
inductive ButtonLabel where
  | label
  | collapseLabel
deriving DecidableEq

/-- The label swap of `handleToggle_`:
`replaceNode(collapseLabel_, label_)` when collapsed, else
`replaceNode(label_, collapseLabel_)`. `ol/dom.replaceNode` replaces
the old node only when it has a parent, so the swap takes effect only
when the node to be replaced is the one currently mounted. -/
def toggledLabel (collapsed : Bool) (l : ButtonLabel) : ButtonLabel :=
  if collapsed then
    if l = ButtonLabel.label then ButtonLabel.collapseLabel else l
  else
    if l = ButtonLabel.collapseLabel then ButtonLabel.label else l

/-- The observable state of a `Legend` control instance. -/
structure PanelState where
  collapsed : Bool
  collapsible : Bool
  overrideCollapsible : Bool
  activeLabel : ButtonLabel
  classCollapsed : Bool
  classUncollapsible : Bool
  renderedLegends : List DomBlock
  renderedVisible : Bool
  displayNone : Bool
  body : List DomBlock
  nextId : Nat
deriving DecidableEq

/-- The construction options read by the constructor (the fields the
claims depend on; label and class-name strings are fixed defaults). -/
structure Options where
  collapsible : Option Bool
  collapsed : Option Bool
deriving DecidableEq

/-- The `Legend` constructor: `collapsed_` defaults to `true`,
`collapsible_` defaults to `true`, `collapsed_` is forced `false` when
not collapsible; the button mounts `collapseLabel_` exactly when
collapsible and not collapsed; the element gets `ol-collapsed` when
collapsed and collapsible, and `ol-uncollapsible` when not collapsible;
`renderedLegends_` starts empty and `renderedVisible_` starts `true`. -/
def constructLegend (options : Options) : PanelState :=
  let collapsed0 := match options.collapsed with
    | some b => b
    | none => true
  let collapsible := match options.collapsible with
    | some b => b
    | none => true
  let collapsed := if collapsible then collapsed0 else false
  { collapsed := collapsed
    collapsible := collapsible
    overrideCollapsible := options.collapsible.isSome
    activeLabel :=
      if collapsible && !collapsed then ButtonLabel.collapseLabel else ButtonLabel.label
    classCollapsed := collapsed && collapsible
    classUncollapsible := !collapsible
    renderedLegends := []
    renderedVisible := true
    displayNone := false
    body := []
    nextId := 0 }

/-- `Legend.handleToggle_`: toggles `ol-collapsed` on the element,
swaps the mounted button label, and flips `collapsed_`. Note that the
source does not consult `collapsible_` here. -/
def handleToggle_ (s : PanelState) : PanelState :=
  { s with
    classCollapsed := !s.classCollapsed
    activeLabel := toggledLabel s.collapsed s.activeLabel
    collapsed := !s.collapsed }

/-- `Legend.handleClick_`: `preventDefault` then `handleToggle_`,
unconditionally. -/
def handleClick_ (s : PanelState) : PanelState :=
  handleToggle_ s

/-- `Legend.setCollapsible`: no-op when unchanged; otherwise stores the
flag, toggles `ol-uncollapsible`, and when turning collapsibility off
while collapsed performs one `handleToggle_`. -/
def setCollapsible (s : PanelState) (collapsible : Bool) : PanelState :=
  if s.collapsible = collapsible then s
  else
    let s1 := { s with
      collapsible := collapsible
      classUncollapsible := !s.classUncollapsible }
    if !collapsible && s1.collapsed then handleToggle_ s1 else s1

/-- `Legend.setCollapsed`: no-op unless collapsible and the requested
state differs; otherwise one `handleToggle_`. -/
def setCollapsed (s : PanelState) (collapsed : Bool) : PanelState :=
  if !s.collapsible || s.collapsed = collapsed then s else handleToggle_ s

/-- The visibility update of `updateElement_`: when `renderedVisible_`
differs from the candidate visibility, set the element display style
and the cache; the node-id counter records the allocations made by the
collection that produced the candidate. -/
def applyVisibility (s : PanelState) (visible : Bool) (nid : Nat) : PanelState :=
  if s.renderedVisible != visible then
    { s with displayNone := !visible, renderedVisible := visible, nextId := nid }
  else
    { s with nextId := nid }

/-- The body update of `updateElement_`: when `equals(legends,
renderedLegends_)` holds nothing happens; otherwise the children of
`divElement_` are removed, the new blocks appended, and the cache
replaced. -/
def applyContent (s : PanelState) (legends : List DomBlock) : PanelState :=
  if equalsNodes legends s.renderedLegends then s
  else { s with body := legends, renderedLegends := legends }

/-- `Legend.updateElement_(frameState)`: with no frame state the element
is hidden (when currently visible) and nothing else happens; otherwise
the legends are collected (an uncaught collection exception propagates),
the visibility is set from emptiness of the collected list, and the body
is rebuilt unless the collected array equals the cached one. -/
def updateElement_ (s : PanelState) : Option FrameState → Except String PanelState
  | none =>
    Except.ok
      (if s.renderedVisible then
        { s with displayNone := true, renderedVisible := false }
      else s)
  | some frame =>
    match collectAlloc s.nextId frame.layerStatesArray with
    | Except.error e => Except.error e
    | Except.ok (legends, nid) =>
      Except.ok (applyContent (applyVisibility s (decide (0 < legends.length)) nid) legends)

/-- The event passed to the render callback; `frameState` is `null`
when the map has no frame. -/
structure MapEvent where
  frameState : Option FrameState
deriving DecidableEq

/-- The module-level `render(mapEvent)` callback:
`this.updateElement_(mapEvent.frameState)`. -/
def render (s : PanelState) (mapEvent : MapEvent) : Except String PanelState :=
  updateElement_ s mapEvent.frameState

/-- Runs one frame notification, keeping the previous state when the
collection throws (an uncaught exception leaves the instance fields
untouched because they are only assigned after collection returns). -/
def runFrame (s : PanelState) (frameState : Option FrameState) : PanelState :=
  match updateElement_ s frameState with
  | Except.ok s1 => s1
  | Except.error _ => s

/-- The user-facing operations on a constructed panel. -/
inductive PanelOp where
  | click
  | setCollapsibleOp (b : Bool)
  | setCollapsedOp (b : Bool)
deriving DecidableEq

/-- Applies one operation. -/
def applyOp (s : PanelState) : PanelOp → PanelState
  | PanelOp.click => handleClick_ s
  | PanelOp.setCollapsibleOp b => setCollapsible s b
  | PanelOp.setCollapsedOp b => setCollapsed s b

/-- Applies a sequence of operations in order. -/
def applyOps (s : PanelState) (ops : List PanelOp) : PanelState :=
  ops.foldl applyOp s

/-! ### Shared concrete fixtures -/

/-- A sample legend entry, as in the demo sources. -/
def sampleEntry : LegendEntry :=
  { label := "river", style := 1, geometry := some "LineString" }

/-- A source that returns one legend entry. -/
def goodSource : Source :=
  { title := some "Hydro", getLegends := some (LegendsCall.returns (LegendsResult.list [sampleEntry])) }

/-- A source whose `getLegends()` throws. -/
def badSource : Source :=
  { title := none, getLegends := some (LegendsCall.throws "boom") }

/-- A source whose `getLegends()` returns an empty array. -/
def emptyArraySource : Source :=
  { title := none, getLegends := some (LegendsCall.returns (LegendsResult.list [])) }

/-- A source whose `getLegends()` returns a falsy value. -/
def absentSource : Source :=
  { title := none, getLegends := some (LegendsCall.returns LegendsResult.absent) }

/-- A source without the `getLegends` capability. -/
def noCapSource : Source :=
  { title := none, getLegends := none }

/-- A visible layer over a given source. -/
def visLayer (src : Source) : LayerState :=
  { visible := true, source := some src }

/-- A frame with a single visible, legend-bearing layer. -/
def goodFrame : FrameState :=
  { layerStatesArray := [visLayer goodSource] }

/-! ### Helper lemmas -/

/-- `applyContent` never changes the visibility cache. -/
theorem applyContent_renderedVisible (s : PanelState) (l : List DomBlock) :
    (applyContent s l).renderedVisible = s.renderedVisible := by
  unfold applyContent
  split <;> rfl

/-- `applyContent` never changes the display style. -/
theorem applyContent_displayNone (s : PanelState) (l : List DomBlock) :
    (applyContent s l).displayNone = s.displayNone := by
  unfold applyContent
  split <;> rfl

/-- After `applyVisibility` the visibility cache holds the candidate
visibility. -/
theorem applyVisibility_renderedVisible (s : PanelState) (v : Bool) (n : Nat) :
    (applyVisibility s v n).renderedVisible = v := by
  unfold applyVisibility
  split
  · rfl
  · next hcond =>
    simp at hcond
    exact hcond

/-- After `applyVisibility` the display style agrees with the candidate
visibility, provided it agreed with the cache before. -/
theorem applyVisibility_displayNone (s : PanelState) (v : Bool) (n : Nat)
    (h : s.displayNone = !s.renderedVisible) :
    (applyVisibility s v n).displayNone = !v := by
  unfold applyVisibility
  split
  · rfl
  · next hcond =>
    simp at hcond
    rw [h, hcond]

/-! ### Claim theorems -/

/-- Claim C7: for every style, rendering a preview with geometry kind
`Polygon` draws the fixed multi-vertex polygon ring, with `LineString`
draws the open zig-zag polyline (first and last vertex differ), and any
other or unspecified geometry kind draws a single point at `(15, 15)`,
the center of the 30x30 drawing surface used for every kind. -/
theorem preview_probe_geometry_selection (label : String) (style : Nat) :
    ((createLegendItem_ label style (some "Polygon")).drawnGeometry =
        ProbeGeometry.polygon polygonProbe ∧ 3 ≤ polygonProbe.length)
    ∧ ((createLegendItem_ label style (some "LineString")).drawnGeometry =
        ProbeGeometry.lineString lineStringProbe ∧
        lineStringProbe.head? ≠ lineStringProbe.getLast?)
    ∧ (∀ g : Option String, g ≠ some "Polygon" → g ≠ some "LineString" →
        (createLegendItem_ label style g).drawnGeometry = ProbeGeometry.point (15, 15))
    ∧ (∀ g : Option String, (createLegendItem_ label style g).canvasSize = (30, 30)) := by
  refine ⟨⟨rfl, by decide⟩, ⟨rfl, by decide⟩, ?_, fun g => rfl⟩
  intro g hp hl
  simp [createLegendItem_, selectProbeGeometry, hp, hl]

/-- Witness for C7: the unspecified geometry kind draws the center
point. -/
theorem preview_probe_geometry_selection_witness :
    (createLegendItem_ "river" 1 none).drawnGeometry = ProbeGeometry.point (15, 15) :=
  (preview_probe_geometry_selection "river" 1).2.2.1 none (by decide) (by decide)

/-- Claim C10: a frame notification carrying no frame state hides the
panel element and changes nothing else - the cached rendered legends,
the body, the collapse state, the labels and the node allocator are all
untouched, and no collection is attempted. The hypothesis states the
display-style consistency that holds in every reachable state. -/
theorem null_frame_hides_and_preserves (s : PanelState)
    (h : s.displayNone = !s.renderedVisible) :
    render s { frameState := none } =
      Except.ok { s with displayNone := true, renderedVisible := false } := by
  unfold render updateElement_
  cases hv : s.renderedVisible
  · rw [hv] at h
    simp only [Bool.not_false] at h
    cases s
    simp_all
  · simp [hv]

/-- Witness for C10 at a freshly constructed panel. -/
theorem null_frame_hides_and_preserves_witness :
    render (constructLegend ⟨none, none⟩) { frameState := none } =
      Except.ok { constructLegend ⟨none, none⟩ with
        displayNone := true, renderedVisible := false } :=
  null_frame_hides_and_preserves (constructLegend ⟨none, none⟩) (by decide)

/-- Claim C8: `setCollapsed` is a no-op unless the panel is collapsible
and the requested state differs from the current one; when it does act
it is exactly one `handleToggle_` - it flips `collapsed`, toggles the
collapsed visual class and swaps the affordance label. -/
theorem setCollapsed_contract (s : PanelState) (b : Bool) :
    ((s.collapsible = false ∨ s.collapsed = b) → setCollapsed s b = s)
    ∧ (s.collapsible = true → s.collapsed ≠ b →
        setCollapsed s b = handleToggle_ s ∧
        (setCollapsed s b).collapsed = !s.collapsed ∧
        (setCollapsed s b).classCollapsed = !s.classCollapsed ∧
        (setCollapsed s b).activeLabel = toggledLabel s.collapsed s.activeLabel) := by
  constructor
  · intro h
    unfold setCollapsed
    rcases h with h | h <;> simp [h]
  · intro h1 h2
    have heq : setCollapsed s b = handleToggle_ s := by
      unfold setCollapsed
      simp [h1, h2]
    exact ⟨heq, by rw [heq]; rfl, by rw [heq]; rfl, by rw [heq]; rfl⟩

/-- Witness for C8: on the default panel (collapsible, collapsed),
`setCollapsed false` acts as one toggle. -/
theorem setCollapsed_contract_witness :
    setCollapsed (constructLegend ⟨none, none⟩) false =
      handleToggle_ (constructLegend ⟨none, none⟩) ∧
    (setCollapsed (constructLegend ⟨none, none⟩) false).collapsed =
      !(constructLegend ⟨none, none⟩).collapsed ∧
    (setCollapsed (constructLegend ⟨none, none⟩) false).classCollapsed =
      !(constructLegend ⟨none, none⟩).classCollapsed ∧
    (setCollapsed (constructLegend ⟨none, none⟩) false).activeLabel =
      toggledLabel (constructLegend ⟨none, none⟩).collapsed
        (constructLegend ⟨none, none⟩).activeLabel :=
  (setCollapsed_contract (constructLegend ⟨none, none⟩) false).2 (by decide) (by decide)

/-- Counterexample to claim C3: on a panel constructed with
`collapsible: false`, a button click is not a no-op - `handleClick_`
calls `handleToggle_` unconditionally, so the click flips the collapsed
state to `true` and adds the collapsed visual class. -/
theorem uncollapsible_click_flips_state :
    (constructLegend ⟨some false, none⟩).collapsible = false ∧
    (constructLegend ⟨some false, none⟩).collapsed = false ∧
    (handleClick_ (constructLegend ⟨some false, none⟩)).collapsed = true ∧
    (handleClick_ (constructLegend ⟨some false, none⟩)).classCollapsed = true := by
  decide

/-- Claim C3 as amended: for a non-collapsible panel in its constructed
presentation (expanded, showing the collapsed-affordance label), a
button click flips the collapsed flag and toggles the collapsed visual
class; only the displayed affordance label is unchanged (the swap is a
DOM no-op because the expand label is not mounted). -/
theorem uncollapsible_click_behavior (s : PanelState)
    (h1 : s.collapsible = false) (h2 : s.collapsed = false)
    (h3 : s.activeLabel = ButtonLabel.label) :
    handleClick_ s = { s with collapsed := true, classCollapsed := !s.classCollapsed } := by
  cases s
  simp_all [handleClick_, handleToggle_, toggledLabel]

/-- Witness for the amended C3 at the constructed non-collapsible
panel. -/
theorem uncollapsible_click_behavior_witness :
    handleClick_ (constructLegend ⟨some false, none⟩) =
      { constructLegend ⟨some false, none⟩ with
        collapsed := true,
        classCollapsed := !(constructLegend ⟨some false, none⟩).classCollapsed } :=
  uncollapsible_click_behavior (constructLegend ⟨some false, none⟩)
    (by decide) (by decide) (by decide)

/-- The constructor establishes the collapse invariant: a
non-collapsible panel starts expanded. -/
theorem constructLegend_invariant (options : Options) :
    (constructLegend options).collapsible = false →
    (constructLegend options).collapsed = false := by
  cases options with
  | mk oc ocd =>
    cases oc with
    | none => intro h; simp [constructLegend] at h
    | some b =>
      cases b with
      | false => intro _; simp [constructLegend]
      | true => intro h; simp [constructLegend] at h

/-- Every operation other than a raw button click preserves the
collapse invariant. -/
theorem applyOp_preserves_collapse_invariant (s : PanelState) (op : PanelOp)
    (hop : op ≠ PanelOp.click)
    (h : s.collapsible = false → s.collapsed = false) :
    (applyOp s op).collapsible = false → (applyOp s op).collapsed = false := by
  cases op with
  | click => exact absurd rfl hop
  | setCollapsibleOp b =>
    simp only [applyOp, setCollapsible]
    by_cases hc : s.collapsible = b
    · simpa [hc] using h
    · cases b with
      | false =>
        cases hcd : s.collapsed with
        | false => simp [hc, hcd, handleToggle_]
        | true => simp [hc, hcd, handleToggle_]
      | true => simp [hc]
  | setCollapsedOp b =>
    simp only [applyOp, setCollapsed]
    by_cases hcb : s.collapsible = true
    · by_cases hbb : s.collapsed = b
      · simpa [hbb] using h
      · simp [hcb, hbb, handleToggle_]
    · have hcf : s.collapsible = false := by
        cases hx : s.collapsible
        · rfl
        · exact absurd hx hcb
      simp [hcf]
      exact h hcf

/-- The collapse invariant is preserved by any click-free operation
sequence. -/
theorem applyOps_invariant (ops : List PanelOp) :
    ∀ s : PanelState, (s.collapsible = false → s.collapsed = false) →
      PanelOp.click ∉ ops →
      ((applyOps s ops).collapsible = false → (applyOps s ops).collapsed = false) := by
  induction ops with
  | nil => intro s h _; exact h
  | cons op rest ih =>
    intro s h hmem
    have hop : op ≠ PanelOp.click := by
      intro hc
      exact hmem (by rw [hc]; exact List.mem_cons_self _ _)
    have hrest : PanelOp.click ∉ rest := fun hr => hmem (List.mem_cons_of_mem _ hr)
    exact ih (applyOp s op) (applyOp_preserves_collapse_invariant s op hop h) hrest

/-- Counterexample to claim C4: the operations explicitly include the
button click, and a click on a panel constructed with
`collapsible: false` produces a state with `collapsible = false` and
`collapsed = true`, violating the invariant. -/
theorem click_breaks_collapse_invariant :
    (applyOps (constructLegend ⟨some false, none⟩) [PanelOp.click]).collapsible = false ∧
    (applyOps (constructLegend ⟨some false, none⟩) [PanelOp.click]).collapsed = true := by
  decide

/-- Claim C4 as amended: in every state reachable from construction via
`setCollapsible` and `setCollapsed` (any click-free operation
sequence), `collapsed` is false whenever `collapsible` is false; and
`setCollapsible false` on a collapsible, collapsed panel forces an
expand transition. A raw button click can violate the invariant because
`handleClick_` does not consult `collapsible`. -/
theorem collapse_invariant_without_click :
    (∀ options : Options, ∀ ops : List PanelOp, PanelOp.click ∉ ops →
      ((applyOps (constructLegend options) ops).collapsible = false →
        (applyOps (constructLegend options) ops).collapsed = false))
    ∧ (∀ s : PanelState, s.collapsible = true → s.collapsed = true →
        (setCollapsible s false).collapsed = false) := by
  constructor
  · intro options ops hops
    exact applyOps_invariant ops (constructLegend options)
      (constructLegend_invariant options) hops
  · intro s h1 h2
    unfold setCollapsible
    simp [h1, h2, handleToggle_]

/-- Witness for the amended C4: turning collapsibility off on the
default (collapsed) panel leaves it expanded. -/
theorem collapse_invariant_without_click_witness :
    (applyOps (constructLegend ⟨none, none⟩) [PanelOp.setCollapsibleOp false]).collapsed = false :=
  collapse_invariant_without_click.1 ⟨none, none⟩ [PanelOp.setCollapsibleOp false]
    (by decide) (by decide)

/-- Counterexample to claim C9: a collapsible panel in the state
reached by constructing with `collapsible: false` and then calling
`setCollapsible(true)` shows the collapsed-affordance label while
expanded; a double toggle restores the collapsed state but changes the
displayed affordance label (the first toggle's label swap is a DOM
no-op because the collapse label is not mounted). -/
theorem toggle_roundtrip_label_counterexample :
    (setCollapsible (constructLegend ⟨some false, none⟩) true).collapsible = true ∧
    (handleToggle_ (handleToggle_
        (setCollapsible (constructLegend ⟨some false, none⟩) true))).collapsed =
      (setCollapsible (constructLegend ⟨some false, none⟩) true).collapsed ∧
    (handleToggle_ (handleToggle_
        (setCollapsible (constructLegend ⟨some false, none⟩) true))).activeLabel ≠
      (setCollapsible (constructLegend ⟨some false, none⟩) true).activeLabel := by
  decide

/-- Claim C9 as amended: for every panel whose displayed affordance
label matches its collapse state (the expand label when collapsed, the
collapse label when expanded - true of every constructed panel and
preserved by toggling), two successive toggles restore the entire
state: collapsed flag, visual class and affordance label. -/
theorem toggle_roundtrip_consistent_label (s : PanelState)
    (hcl : s.collapsible = true)
    (hlab : s.activeLabel =
      (if s.collapsed then ButtonLabel.label else ButtonLabel.collapseLabel)) :
    handleToggle_ (handleToggle_ s) = s := by
  cases s with
  | mk c col oc al cc cu rl rv dn bd ni =>
    cases c <;> simp_all [handleToggle_, toggledLabel]

/-- Witness for the amended C9 at the default panel. -/
theorem toggle_roundtrip_consistent_label_witness :
    handleToggle_ (handleToggle_ (constructLegend ⟨none, none⟩)) =
      constructLegend ⟨none, none⟩ :=
  toggle_roundtrip_consistent_label (constructLegend ⟨none, none⟩)
    (by decide) (by decide)

/-- Counterexample to claim C5: a visible layer whose source
`getLegends()` returns an empty array (truthy in JavaScript, so the
`if (!legends) continue` guard does not fire) contributes a block with
zero entries - an empty block is produced. -/
theorem empty_array_produces_empty_block :
    collectAlloc 0 [visLayer emptyArraySource] =
      Except.ok ([⟨0, { title := none, items := [] }⟩], 1) := by
  rfl

/-- Claim C5 as amended: a layer whose source lacks the `getLegends`
capability, or whose accessor returns a falsy value, contributes no
block to the collection output; a source whose accessor returns an
empty array, however, contributes a block with zero entries. -/
theorem collect_skips_absent_capability (nid : Nat) (ls : LayerState)
    (rest : List LayerState) (src : Source) (hs : ls.source = some src) :
    ((src.getLegends = none ∨
        src.getLegends = some (LegendsCall.returns LegendsResult.absent)) →
      collectAlloc nid (ls :: rest) = collectAlloc nid rest)
    ∧ (ls.visible = true →
        src.getLegends = some (LegendsCall.returns (LegendsResult.list [])) →
        collectAlloc nid (ls :: rest) =
          (collectAlloc (nid + 1) rest).map
            (fun p => (⟨nid, { title := blockTitle src.title, items := [] }⟩ :: p.1, p.2))) := by
  constructor
  · intro hcap
    have hout : layerOutcome ls = LayerOutcome.skip := by
      unfold layerOutcome
      rcases hcap with h | h <;> cases hv : ls.visible <;> simp [hs, h, hv]
    simp [collectAlloc, hout]
  · intro hv hcap
    have hout : layerOutcome ls =
        LayerOutcome.contribute { title := blockTitle src.title, items := [] } := by
      unfold layerOutcome
      simp [hs, hcap, hv, mkBlock]
    cases hr : collectAlloc (nid + 1) rest with
    | error e => simp [collectAlloc, hout, hr, Except.map]
    | ok p =>
      cases p with
      | mk blocks nid2 => simp [collectAlloc, hout, hr, Except.map]

/-- Witness for the amended C5: a capability-less source before a good
source changes nothing. -/
theorem collect_skips_absent_capability_witness :
    collectAlloc 0 [visLayer noCapSource, visLayer goodSource] =
      collectAlloc 0 [visLayer goodSource] :=
  (collect_skips_absent_capability 0 (visLayer noCapSource) [visLayer goodSource]
    noCapSource rfl).1 (Or.inl rfl)

/-- Counterexample to claim C1: with two visible legend-bearing sources
where the second throws from `getLegends()`, the collection aborts with
the uncaught exception and yields nothing - the first source's block is
lost, and no report identifying the layer is produced. Alone, the good
source does yield its full block. -/
theorem provider_throw_loses_other_source :
    collectAlloc 0 [visLayer goodSource, visLayer badSource] = Except.error "boom" ∧
    collectAlloc 0 [visLayer goodSource] =
      Except.ok ([⟨0, mkBlock goodSource.title [sampleEntry]⟩], 1) :=
  ⟨rfl, rfl⟩

/-- Claim C1 as amended: there is no partial-failure isolation - if any
visible layer's source throws from its legend accessor, the whole
collection aborts with an exception and produces no blocks for any
source (the source has no `try`/`catch` around `getLegends()`). -/
theorem collect_aborts_on_provider_throw (nid : Nat) (layers : List LayerState) :
    (∃ ls ∈ layers, ls.visible = true ∧ ∃ src, ls.source = some src ∧
        ∃ e, src.getLegends = some (LegendsCall.throws e)) →
    ∃ e2, collectAlloc nid layers = Except.error e2 := by
  induction layers generalizing nid with
  | nil =>
    intro h
    obtain ⟨ls, hmem, _⟩ := h
    exact absurd hmem (List.not_mem_nil ls)
  | cons a tl ih =>
    intro h
    obtain ⟨ls, hmem, hvis, src, hsrc, e, hcap⟩ := h
    rcases List.mem_cons.mp hmem with heq | htl
    · subst heq
      have hout : layerOutcome ls = LayerOutcome.throw e := by
        unfold layerOutcome
        simp [hvis, hsrc, hcap]
      exact ⟨e, by simp [collectAlloc, hout]⟩
    · have htail : ∃ ls2 ∈ tl, ls2.visible = true ∧ ∃ src2, ls2.source = some src2 ∧
          ∃ e2, src2.getLegends = some (LegendsCall.throws e2) :=
        ⟨ls, htl, hvis, src, hsrc, e, hcap⟩
      cases hout : layerOutcome a with
      | skip =>
        obtain ⟨e2, he2⟩ := ih nid htail
        exact ⟨e2, by simp [collectAlloc, hout, he2]⟩
      | throw e3 =>
        exact ⟨e3, by simp [collectAlloc, hout]⟩
      | contribute b =>
        obtain ⟨e2, he2⟩ := ih (nid + 1) htail
        exact ⟨e2, by simp [collectAlloc, hout, he2]⟩

/-- Witness for the amended C1 at the two-source frame where the second
source throws. -/
theorem collect_aborts_on_provider_throw_witness :
    ∃ e2, collectAlloc 0 [visLayer goodSource, visLayer badSource] = Except.error e2 :=
  collect_aborts_on_provider_throw 0 [visLayer goodSource, visLayer badSource]
    ⟨visLayer badSource, by decide, rfl, badSource, rfl, "boom", rfl⟩

/-- Every block produced by a collection carries a node id at or above
the starting allocation counter: the blocks are freshly created DOM
nodes. -/
theorem collectAlloc_ids_ge (layers : List LayerState) :
    ∀ (nid : Nat) (legends : List DomBlock) (nid2 : Nat),
      collectAlloc nid layers = Except.ok (legends, nid2) →
      ∀ b ∈ legends, nid ≤ b.nodeId := by
  induction layers with
  | nil =>
    intro nid legends nid2 h b hb
    simp [collectAlloc] at h
    rw [h.1] at hb
    exact absurd hb (List.not_mem_nil b)
  | cons a tl ih =>
    intro nid legends nid2 h b hb
    cases hout : layerOutcome a with
    | skip =>
      rw [show collectAlloc nid (a :: tl) =
          (match layerOutcome a with
            | LayerOutcome.skip => collectAlloc nid tl
            | LayerOutcome.throw e => Except.error e
            | LayerOutcome.contribute b0 =>
              match collectAlloc (nid + 1) tl with
              | Except.error e => Except.error e
              | Except.ok (blocks, n2) => Except.ok (⟨nid, b0⟩ :: blocks, n2)) from rfl,
        hout] at h
      exact ih nid legends nid2 h b hb
    | throw e =>
      rw [show collectAlloc nid (a :: tl) =
          (match layerOutcome a with
            | LayerOutcome.skip => collectAlloc nid tl
            | LayerOutcome.throw e => Except.error e
            | LayerOutcome.contribute b0 =>
              match collectAlloc (nid + 1) tl with
              | Except.error e => Except.error e
              | Except.ok (blocks, n2) => Except.ok (⟨nid, b0⟩ :: blocks, n2)) from rfl,
        hout] at h
      exact Except.noConfusion h
    | contribute b0 =>
      rw [show collectAlloc nid (a :: tl) =
          (match layerOutcome a with
            | LayerOutcome.skip => collectAlloc nid tl
            | LayerOutcome.throw e => Except.error e
            | LayerOutcome.contribute b0 =>
              match collectAlloc (nid + 1) tl with
              | Except.error e => Except.error e
              | Except.ok (blocks, n2) => Except.ok (⟨nid, b0⟩ :: blocks, n2)) from rfl,
        hout] at h
      cases hr : collectAlloc (nid + 1) tl with
      | error e =>
        rw [hr] at h
        exact Except.noConfusion h
      | ok p =>
        cases p with
        | mk blocks n2 =>
          rw [hr] at h
          simp only [Except.ok.injEq, Prod.mk.injEq] at h
          rw [← h.1] at hb
          rcases List.mem_cons.mp hb with hbe | hbm
          · rw [hbe]
          · exact Nat.le_of_succ_le (ih (nid + 1) blocks n2 hr b hbm)

/-- Two node lists are never `equals`-equal when the first is nonempty
and its ids all lie at or above a bound that the second stays below. -/
theorem equalsNodes_false_of_separated (legends old : List DomBlock) (n : Nat)
    (h1 : ∀ b ∈ legends, n ≤ b.nodeId) (h2 : ∀ b ∈ old, b.nodeId < n)
    (hne : legends ≠ []) : equalsNodes legends old = false := by
  cases legends with
  | nil => exact absurd rfl hne
  | cons a as =>
    cases old with
    | nil => rfl
    | cons b bs =>
      have ha : n ≤ a.nodeId := h1 a (List.mem_cons_self a as)
      have hb : b.nodeId < n := h2 b (List.mem_cons_self b bs)
      have hne2 : a.nodeId ≠ b.nodeId := by omega
      simp [equalsNodes, hne2]

/-- Reduction of a frame notification whose collection succeeds. -/
theorem updateElement_some_ok (s : PanelState) (frame : FrameState)
    (legends : List DomBlock) (nid : Nat)
    (hcol : collectAlloc s.nextId frame.layerStatesArray = Except.ok (legends, nid)) :
    updateElement_ s (some frame) =
      Except.ok (applyContent (applyVisibility s (decide (0 < legends.length)) nid) legends) := by
  simp only [updateElement_]
  rw [hcol]

/-- Claim C6: after a frame notification, the panel is hidden (display
`none`, visibility cache false) exactly when the collected content for
that frame has zero blocks; the collapse fields play no role. The
hypothesis is the display-style consistency of every reachable state. -/
theorem emptiness_gates_visibility (s : PanelState) (frame : FrameState)
    (legends : List DomBlock) (nid : Nat) (s2 : PanelState)
    (hdisp : s.displayNone = !s.renderedVisible)
    (hcol : collectAlloc s.nextId frame.layerStatesArray = Except.ok (legends, nid))
    (hupd : updateElement_ s (some frame) = Except.ok s2) :
    (s2.renderedVisible = false ↔ legends = []) ∧
    (s2.displayNone = true ↔ legends = []) := by
  rw [updateElement_some_ok s frame legends nid hcol] at hupd
  simp only [Except.ok.injEq] at hupd
  rw [← hupd, applyContent_renderedVisible, applyContent_displayNone,
    applyVisibility_renderedVisible, applyVisibility_displayNone s _ _ hdisp]
  cases legends <;> simp

/-- Witness for C6 at a frame with one contributing source. -/
theorem emptiness_gates_visibility_witness :
    ((runFrame (constructLegend ⟨none, none⟩) (some goodFrame)).renderedVisible = false ↔
      ([⟨0, mkBlock goodSource.title [sampleEntry]⟩] : List DomBlock) = []) ∧
    ((runFrame (constructLegend ⟨none, none⟩) (some goodFrame)).displayNone = true ↔
      ([⟨0, mkBlock goodSource.title [sampleEntry]⟩] : List DomBlock) = []) :=
  emptiness_gates_visibility (constructLegend ⟨none, none⟩) goodFrame
    [⟨0, mkBlock goodSource.title [sampleEntry]⟩] 1
    (runFrame (constructLegend ⟨none, none⟩) (some goodFrame))
    (by decide) (by rfl) (by rfl)

/-- Counterexample to claim C2: two consecutive frame notifications
with the same snapshot yield structurally equal content, yet the second
notification rebuilds the panel body again - the diff compares DOM node
identity (`ol/array.equals`), and the collection creates fresh nodes on
every frame. -/
theorem second_frame_rebuilds_counterexample :
    (runFrame (runFrame (constructLegend ⟨none, none⟩) (some goodFrame))
        (some goodFrame)).renderedLegends.map DomBlock.block =
      (runFrame (constructLegend ⟨none, none⟩) (some goodFrame)).renderedLegends.map
        DomBlock.block ∧
    (runFrame (runFrame (constructLegend ⟨none, none⟩) (some goodFrame))
        (some goodFrame)).body ≠
      (runFrame (constructLegend ⟨none, none⟩) (some goodFrame)).body := by
  decide

/-- Claim C2 as amended: a frame notification rebuilds the panel body
whenever the collected content is nonempty, regardless of structural
equality with the cached content, because the cached and candidate DOM
nodes are distinct; a re-render is a no-op only when the candidate node
array is element-wise identical to the cached one (in particular when
both are empty). The hypotheses state the allocator and display
invariants of every reachable state. -/
theorem frame_rebuilds_whenever_nonempty (s : PanelState) (frame : FrameState)
    (legends : List DomBlock) (nid : Nat)
    (hids : ∀ b ∈ s.renderedLegends, b.nodeId < s.nextId)
    (hdisp : s.displayNone = !s.renderedVisible)
    (hcol : collectAlloc s.nextId frame.layerStatesArray = Except.ok (legends, nid))
    (hne : legends ≠ []) :
    updateElement_ s (some frame) =
      Except.ok
        { s with
          displayNone := false
          renderedVisible := true
          nextId := nid
          renderedLegends := legends
          body := legends } := by
  have hge := collectAlloc_ids_ge frame.layerStatesArray s.nextId legends nid hcol
  have hEq : equalsNodes legends s.renderedLegends = false :=
    equalsNodes_false_of_separated legends s.renderedLegends s.nextId hge hids hne
  have hvis : decide (0 < legends.length) = true := by
    cases legends with
    | nil => exact absurd rfl hne
    | cons a as => simp
  rw [updateElement_some_ok s frame legends nid hcol, hvis]
  have hAV : applyVisibility s true nid =
      { s with displayNone := false, renderedVisible := true, nextId := nid } := by
    unfold applyVisibility
    cases hrv : s.renderedVisible
    · simp [hrv]
    · rw [hrv] at hdisp
      simp only [Bool.not_true] at hdisp
      cases s
      simp_all
  rw [hAV]
  have hRL : ({ s with displayNone := false, renderedVisible := true, nextId := nid } : PanelState).renderedLegends = s.renderedLegends := rfl
  unfold applyContent
  rw [hRL, hEq]
  simp

/-- Witness for the amended C2: the first frame on a fresh panel
rebuilds the body from the collected block. -/
theorem frame_rebuilds_whenever_nonempty_witness :
    updateElement_ (constructLegend ⟨none, none⟩) (some goodFrame) =
      Except.ok
        { constructLegend ⟨none, none⟩ with
          displayNone := false
          renderedVisible := true
          nextId := 1
          renderedLegends := [⟨0, mkBlock goodSource.title [sampleEntry]⟩]
          body := [⟨0, mkBlock goodSource.title [sampleEntry]⟩] } :=
  frame_rebuilds_whenever_nonempty (constructLegend ⟨none, none⟩) goodFrame
    [⟨0, mkBlock goodSource.title [sampleEntry]⟩] 1
    (by decide) (by decide) (by rfl) (by decide)

end OlLegend
